import Mathlib

/-!
# Verification of the monitor-to-scrape-config compiler

Shallow embedding of the CRD config generators found in
`component/discovery/kubernetes_crds/configGenerator.go` (the `kubernetes_crds`
variant) and `component/prometheus/operator/podmonitors/config_gen.go` (the
`podmonitors` variant), together with the client-argument validation from
`component/common/config/kubernetes.go`.

Go zero values are the structure field defaults; a Go nil pointer is `none`;
a Go function returning `(T, error)` becomes `Except String T`.
-/

namespace Agent

/-- Models `relabel.Regexp` from the external Prometheus `relabel` library:
a wrapper around a compiled regular expression, keeping the original source
string.  The Go zero value has a nil inner pointer, which marks the field as
unset; that nil state is `none` here. -/
abbrev Regexp := Option String

/-- Models syntactic validity of a pattern for `relabel.NewRegexp` (external
Prometheus library): compilation fails on malformed syntax such as an
unmatched parenthesis.  Modelled as a parenthesis-balance check, which is a
sound fragment of Go's regexp syntax: `"("` is genuinely rejected by
`regexp.Compile` while paren-balanced alternation patterns used by the
generator (`"(Failed|Succeeded)"`, `"(.+)"`, …) compile. -/
def parenOk : List Char → Nat → Bool
  | [], 0 => true
  | [], _ + 1 => false
  | '(' :: cs, d => parenOk cs (d + 1)
  | ')' :: _, 0 => false
  | ')' :: cs, d + 1 => parenOk cs d
  | _ :: cs, d => parenOk cs d

/-- A pattern is valid when its parentheses balance. -/
def regexValid (s : String) : Bool := parenOk s.data 0

/-- Models `relabel.NewRegexp` (external library): returns the compiled
regexp or an error for malformed syntax. -/
def NewRegexp (s : String) : Except String Regexp :=
  if regexValid s then .ok (some s) else .error ("error parsing regexp: " ++ s)

/-- Embeds `parseRegexp` from `configGenerator.go` (kubernetes_crds): on a parse
error it only logs and returns the zero-value `relabel.Regexp` (nil inner
pointer, i.e. `none`); it never fails. -/
def parseRegexp (s : String) : Regexp :=
  match NewRegexp s with
  | .ok r => r
  | .error _ => none

/-- Models `relabel.Config` from the external Prometheus library.  Field
defaults are the Go zero values ("unset" markers). -/
structure RelabelConfig where
  sourceLabels : List String := []
  separator : String := ""
  regex : Regexp := none
  modulus : Nat := 0
  targetLabel : String := ""
  replacement : String := ""
  action : String := ""
deriving Repr, DecidableEq

/-- Models `relabel.DefaultRelabelConfig` from the external Prometheus
library: action `replace`, separator `";"`, regex `(.*)` (match-all),
replacement `"$1"`. -/
def DefaultRelabelConfig : RelabelConfig :=
  { action := "replace", separator := ";", regex := some "(.*)", replacement := "$1" }

/-- The defaulting pass applied by `relabeler.Add` (identical in both
generator variants) to one rule: each unset field is filled from
`DefaultRelabelConfig`. -/
def addDefaults (cfg : RelabelConfig) : RelabelConfig :=
  { cfg with
    action := if cfg.action = "" then DefaultRelabelConfig.action else cfg.action
    separator := if cfg.separator = "" then DefaultRelabelConfig.separator else cfg.separator
    regex := if cfg.regex = none then DefaultRelabelConfig.regex else cfg.regex
    replacement := if cfg.replacement = "" then DefaultRelabelConfig.replacement else cfg.replacement }

/-- Embeds `relabeler.Add` (both variants): appends the given rules to the
accumulated configs, defaulting each one's unset fields. -/
def relabelerAdd (r : List RelabelConfig) (cfgs : List RelabelConfig) : List RelabelConfig :=
  r ++ cfgs.map addDefaults

/-- Models `v1.RelabelConfig` from the external prometheus-operator API:
all fields are plain strings/ints, zero values meaning unset. -/
structure V1RelabelConfig where
  sourceLabels : List String := []
  separator : String := ""
  regex : String := ""
  modulus : Nat := 0
  targetLabel : String := ""
  replacement : String := ""
  action : String := ""
deriving Repr, DecidableEq

/-- The per-rule conversion inside `relabeler.addFromV1` of
`configGenerator.go` (kubernetes_crds): starts from a zero-value
`relabel.Config`, copies each field only when the v1 field is non-zero, and
appends the result directly — without the `Add` defaulting pass.  A regex
parse failure is swallowed by `parseRegexp` (logged, regex left unset). -/
def convertFromV1crds (c : V1RelabelConfig) : RelabelConfig :=
  { sourceLabels := c.sourceLabels
    separator := if c.separator = "" then "" else c.separator
    targetLabel := if c.targetLabel = "" then "" else c.targetLabel
    regex := if c.regex = "" then none else parseRegexp c.regex
    modulus := if c.modulus = 0 then 0 else c.modulus
    replacement := if c.replacement = "" then "" else c.replacement
    action := if c.action = "" then "" else c.action }

/-- Embeds `relabeler.addFromV1` of `configGenerator.go` (kubernetes_crds): total,
no error path. -/
def relabelerAddFromV1crds (r : List RelabelConfig) (cs : List V1RelabelConfig) :
    List RelabelConfig :=
  r ++ cs.map convertFromV1crds

/-- The per-rule conversion inside `relabeler.addFromV1` of `config_gen.go`
(podmonitors): identical to the kubernetes_crds one except that a regex
parse failure aborts with the error. -/
def convertFromV1pm (c : V1RelabelConfig) : Except String RelabelConfig :=
  if c.regex = "" then .ok (convertFromV1crds c)
  else
    match NewRegexp c.regex with
    | .error e => .error e
    | .ok r => .ok { convertFromV1crds c with regex := r }

/-- Embeds `relabeler.addFromV1` of `config_gen.go` (podmonitors): appends converted
rules, returning the first regex parse error if any. -/
def relabelerAddFromV1pm (r : List RelabelConfig) :
    List V1RelabelConfig → Except String (List RelabelConfig)
  | [] => .ok r
  | c :: cs =>
    match convertFromV1pm c with
    | .error e => .error e
    | .ok cfg => relabelerAddFromV1pm (r ++ [cfg]) cs

/-- Embeds `initRelabelings` (both variants): a fresh relabeler holding the one rule
that saves the prometheus job name into a meta label, defaulted by `Add`. -/
def initRelabelings : List RelabelConfig :=
  relabelerAdd [] [{ sourceLabels := ["job"], targetLabel := "__tmp_prometheus_job_name" }]

/-- A character kept verbatim by `sanitizeLabelName`: `[a-zA-Z0-9_]`. -/
def isValidLabelChar (c : Char) : Bool :=
  (('a' ≤ c && c ≤ 'z') || ('A' ≤ c && c ≤ 'Z') || ('0' ≤ c && c ≤ '9') || c = '_')

/-- Embeds `sanitizeLabelName` (both variants): every character outside
`[a-zA-Z0-9_]` is replaced with `_`. -/
def sanitizeLabelName (s : String) : String :=
  String.mk (s.data.map (fun c => if isValidLabelChar c then c else '_'))

/-- Models `v1.NamespaceSelector` from the external prometheus-operator API. -/
structure NamespaceSelector where
  any : Bool := false
  matchNames : List String := []
deriving Repr, DecidableEq

/-- Embeds `getNamespacesFromNamespaceSelector` (identical in both variants). -/
def getNamespacesFromNamespaceSelector (nsel : NamespaceSelector) (ns : String) : List String :=
  if nsel.any then []
  else if nsel.matchNames.length = 0 then [ns]
  else nsel.matchNames

/-! ## Secret references and credential structures -/

/-- Models `v1.SecretKeySelector`: a reference to one key of a secret. -/
structure SecretKeySelector where
  name : String
  key : String
deriving Repr, DecidableEq

/-- Models `v1.ConfigMapKeySelector`: a reference to one key of a config map. -/
structure ConfigMapKeySelector where
  name : String
  key : String
deriving Repr, DecidableEq

/-- Models `v1.SecretOrConfigMap`: a union of the two reference kinds,
realised in Go as two nilable pointers. -/
structure SecretOrConfigMap where
  secret : Option SecretKeySelector := none
  configMap : Option ConfigMapKeySelector := none
deriving Repr, DecidableEq

/-- Models `v1.SafeTLSConfig` from the prometheus-operator API. -/
structure SafeTLSConfig where
  insecureSkipVerify : Bool := false
  ca : SecretOrConfigMap := {}
  cert : SecretOrConfigMap := {}
  keySecret : Option SecretKeySelector := none
  serverName : String := ""
deriving Repr, DecidableEq

/-- Models `v1.OAuth2` from the prometheus-operator API. -/
structure OAuth2V1 where
  clientID : SecretOrConfigMap := {}
  clientSecret : SecretKeySelector
  tokenURL : String := ""
  scopes : List String := []
  endpointParams : List (String × String) := []
deriving Repr, DecidableEq

/-- Models `v1.SafeAuthorization` from the prometheus-operator API. -/
structure SafeAuthorization where
  type : String := ""
  credentials : Option SecretKeySelector := none
deriving Repr, DecidableEq

/-- Models `commonConfig.TLSConfig` (output side, external Prometheus
common library). -/
structure TLSConfig where
  caFile : String := ""
  certFile : String := ""
  keyFile : String := ""
  serverName : String := ""
  insecureSkipVerify : Bool := false
deriving Repr, DecidableEq

/-- Models `commonConfig.Authorization` (output side). -/
structure Authorization where
  type : String := ""
  credentials : String := ""
  credentialsFile : String := ""
deriving Repr, DecidableEq

/-- Models `commonConfig.OAuth2` (output side). -/
structure OAuth2Out where
  clientID : String := ""
  clientSecret : String := ""
  clientSecretFile : String := ""
  tokenURL : String := ""
  scopes : List String := []
  endpointParams : List (String × String) := []
deriving Repr, DecidableEq

/-- Models `commonConfig.BasicAuth` (external Prometheus common library). -/
structure BasicAuth where
  username : String := ""
  password : String := ""
  passwordFile : String := ""
deriving Repr, DecidableEq

/-- Models `commonConfig.HTTPClientConfig` / the river `HTTPClientConfig`.
Field defaults are the Go zero values. -/
structure HTTPClientConfig where
  basicAuth : Option BasicAuth := none
  bearerToken : String := ""
  bearerTokenFile : String := ""
  tlsConfig : TLSConfig := {}
  authorization : Option Authorization := none
  oauth2 : Option OAuth2Out := none
  followRedirects : Bool := false
  enableHTTP2 : Bool := false
deriving Repr, DecidableEq

/-- Models `config.DefaultHTTPClientConfig` from
`component/common/config`: follow-redirects and HTTP/2 enabled. -/
def DefaultHTTPClientConfig : HTTPClientConfig :=
  { followRedirects := true, enableHTTP2 := true }

/-- Models `config.ClientArguments` from
`component/common/config/kubernetes.go`: how to connect to the cluster.
`apiServer = none` is a nil URL. -/
structure ClientArguments where
  apiServer : Option String := none
  kubeConfig : String := ""
  httpClientConfig : HTTPClientConfig := {}
deriving Repr, DecidableEq

/-- The validation performed by `ClientArguments.UnmarshalRiver`
(`component/common/config/kubernetes.go`), after unmarshalling: the
kubeconfig path and the API-server URL are mutually exclusive, and a custom
HTTP client configuration requires the API-server URL. -/
def validateClientArguments (args : ClientArguments) : Except String Unit :=
  if args.apiServer ≠ none ∧ args.kubeConfig ≠ "" then
    .error "only one of api_server and kubeconfig_file can be set"
  else if args.kubeConfig ≠ "" ∧ args.httpClientConfig ≠ DefaultHTTPClientConfig then
    .error "custom HTTP client configuration is not allowed when kubeconfig_file is set"
  else if args.apiServer = none ∧ args.httpClientConfig ≠ DefaultHTTPClientConfig then
    .error "api_server must be set when custom HTTP client configuration is provided"
  else
    .ok ()

/-- Models `promk8s.SDConfig` (output side, external Prometheus discovery
library).  Field defaults are Go zero values. -/
structure SDConfig where
  role : String := ""
  namespaces : List String := []
  kubeConfig : String := ""
  apiServer : Option String := none
  httpClientConfig : HTTPClientConfig := {}
  attachMetadataNode : Bool := false
deriving Repr, DecidableEq

/-- Embeds `generateK8SSDConfig` from `config_gen.go` (podmonitors).  The Go code
copies `client.HTTPClientConfig` by value, but its `Authorization` field is
a pointer, so the assignment `hCfg.Authorization.Type = "Bearer"` writes
through into the caller's `ClientArguments`; the function is therefore
embedded as returning both the built `SDConfig` and the post-state of the
client arguments. -/
def generateK8SSDConfig (client : ClientArguments) (nsel : NamespaceSelector) (ns : String)
    (role : String) (attachMetadata : Option Bool) : SDConfig × ClientArguments :=
  let cfg0 : SDConfig := { role := role }
  let namespaces := getNamespacesFromNamespaceSelector nsel ns
  let cfg1 := if namespaces.length ≠ 0 then { cfg0 with namespaces := namespaces } else cfg0
  let cfg2 := if client.kubeConfig ≠ "" then { cfg1 with kubeConfig := client.kubeConfig } else cfg1
  let (cfg3, client') :=
    match client.apiServer with
    | none => (cfg2, client)
    | some url =>
      let hCfg := client.httpClientConfig
      let auth' :=
        match hCfg.authorization with
        | none => none
        | some a => some (if a.type = "" then { a with type := "Bearer" } else a)
      let http : HTTPClientConfig :=
        { basicAuth := hCfg.basicAuth
          bearerToken := hCfg.bearerToken
          bearerTokenFile := hCfg.bearerTokenFile
          tlsConfig := hCfg.tlsConfig
          authorization := auth' }
      ({ cfg2 with apiServer := some url, httpClientConfig := http },
       { client with httpClientConfig := { hCfg with authorization := auth' } })
  let cfg4 :=
    match attachMetadata with
    | none => cfg3
    | some node => { cfg3 with attachMetadataNode := node }
  (cfg4, client')

/-- Embeds `GenerateSafeTLS` from `config_gen.go` (podmonitors): any CA, client
certificate or key reference is rejected as not supported yet; only
`insecureSkipVerify` and `serverName` pass through. -/
def GenerateSafeTLSpm (tls : SafeTLSConfig) : Except String TLSConfig :=
  let tc : TLSConfig := { insecureSkipVerify := tls.insecureSkipVerify }
  if tls.ca.secret ≠ none ∨ tls.ca.configMap ≠ none then
    .error "loading ca certs no supported yet"
  else if tls.cert.secret ≠ none ∨ tls.cert.configMap ≠ none then
    .error "loading tls certs no supported yet"
  else if tls.keySecret ≠ none then
    .error "loading tls certs no supported yet"
  else if tls.serverName ≠ "" then
    .ok { tc with serverName := tls.serverName }
  else
    .ok tc

/-- Embeds `GenerateOAuth2` from `config_gen.go` (podmonitors): any OAuth2 source
is not supported yet. -/
def GenerateOAuth2pm (oauth2 : Option OAuth2V1) : Except String (Option OAuth2Out) :=
  match oauth2 with
  | none => .ok none
  | some _ => .error "oauth2 not supported yet"

/-- Embeds `GenerateSafeAuthorization` from `config_gen.go` (podmonitors): any
authorization source is not supported yet. -/
def GenerateSafeAuthorizationPm (auth : Option SafeAuthorization) :
    Except String (Option Authorization) :=
  match auth with
  | none => .ok none
  | some _ => .error "authorization not supported yet"

/-! ## The kubernetes_crds secret-resolving builders -/

/-- Modelled from the spec: `k8sfs.SecretFilename` (package
`pkg/util/k8sfs`, absent from `src/`) "computes a deterministic path string
from (namespace, kind, name, key) without touching storage". -/
def SecretFilename (ns name key : String) : String :=
  "/var/lib/grafana-agent/secrets/" ++ ns ++ "/" ++ name ++ "/" ++ key

/-- Modelled from the spec: `k8sfs.ConfigMapFilename` (package
`pkg/util/k8sfs`, absent from `src/`), the config-map counterpart of
`SecretFilename`. -/
def ConfigMapFilename (ns name key : String) : String :=
  "/var/lib/grafana-agent/configMaps/" ++ ns ++ "/" ++ name ++ "/" ++ key

/-- The secret/config-map accessor capability (`k8sfs.FS`): eager value
fetches that may fail. -/
structure SecretFS where
  readSecret : String → String → String → Except String String
  readConfigMap : String → String → String → Except String String

/-- Embeds `generateSafeTLS` from `configGenerator.go` (kubernetes_crds): resolves
every credential reference to a deterministic file path; never fails and
never reads the store. -/
def generateSafeTLScrds (ns : String) (tls : SafeTLSConfig) : TLSConfig :=
  let tc : TLSConfig := { insecureSkipVerify := tls.insecureSkipVerify }
  let tc :=
    match tls.ca.secret with
    | some s => { tc with caFile := SecretFilename ns s.name s.key }
    | none =>
      match tls.ca.configMap with
      | some c => { tc with caFile := ConfigMapFilename ns c.name c.key }
      | none => tc
  let tc :=
    match tls.cert.secret with
    | some s => { tc with certFile := SecretFilename ns s.name s.key }
    | none =>
      match tls.cert.configMap with
      | some c => { tc with certFile := ConfigMapFilename ns c.name c.key }
      | none => tc
  let tc :=
    match tls.keySecret with
    | some s => { tc with keyFile := SecretFilename ns s.name s.key }
    | none => tc
  if tls.serverName ≠ "" then { tc with serverName := tls.serverName } else tc

/-- Embeds `generateOAuth2` from `configGenerator.go` (kubernetes_crds): the client
identifier is fetched eagerly as an inline value (a fetch error is only
logged, leaving the Go zero value `""`); the client secret resolves to a
file path; token URL, scopes and endpoint params pass through. -/
def generateOAuth2crds (fs : SecretFS) (oauth2 : Option OAuth2V1) (ns : String) :
    Option OAuth2Out :=
  match oauth2 with
  | none => none
  | some o =>
    let clientID :=
      match o.clientID.secret with
      | some s =>
        match fs.readSecret ns s.name s.key with
        | .ok v => v
        | .error _ => ""
      | none =>
        match o.clientID.configMap with
        | some c =>
          match fs.readConfigMap ns c.name c.key with
          | .ok v => v
          | .error _ => ""
        | none => ""
    some
      { clientID := clientID
        clientSecretFile := SecretFilename ns o.clientSecret.name o.clientSecret.key
        tokenURL := o.tokenURL
        scopes := if o.scopes.length > 0 then o.scopes else []
        endpointParams := if o.endpointParams.length > 0 then o.endpointParams else [] }

/-- Embeds `generateSafeAuthorization` from `configGenerator.go` (kubernetes_crds).
The Go code receives `auth` as a pointer and executes
`auth.Type = "Bearer"` when the type is unset, mutating the caller's
`SafeAuthorization`; the embedding returns the post-state alongside the
result.  The credentials reference resolves to a file path. -/
def generateSafeAuthorizationCrds (auth : Option SafeAuthorization) (ns : String) :
    Option Authorization × Option SafeAuthorization :=
  match auth with
  | none => (none, none)
  | some a =>
    let a' := if a.type = "" then { a with type := "Bearer" } else a
    let az : Authorization :=
      { type := a'.type.trim
        credentialsFile :=
          match a'.credentials with
          | some c => SecretFilename ns c.name c.key
          | none => "" }
    (some az, some a')

/-! ## Monitor data model -/

/-- Models `meta_v1.LabelSelectorOperator`. -/
inductive MatchOperator
  | opIn
  | opNotIn
  | opExists
  | opDoesNotExist
deriving Repr, DecidableEq

/-- Models `meta_v1.LabelSelectorRequirement`. -/
structure MatchExpression where
  key : String
  operator : MatchOperator
  values : List String := []
deriving Repr, DecidableEq

/-- Models `meta_v1.LabelSelector`.  The Go `MatchLabels` map is embedded as
an association list in the canonical (sorted-key) iteration order the
generator emits. -/
structure LabelSelector where
  matchLabels : List (String × String) := []
  matchExpressions : List MatchExpression := []
deriving Repr, DecidableEq

/-- An endpoint port: name or number (`v1.PodMetricsEndpoint.Port` /
`TargetPort`). -/
inductive PortSpec
  | named (s : String)
  | numeric (n : Nat)
deriving Repr, DecidableEq

/-- Models `v1.PodMetricsEndpoint` (the fields the generator consumes).
Durations are in seconds; 0 means unset. -/
structure PodMetricsEndpoint where
  port : PortSpec
  path : String := ""
  scheme : String := ""
  interval : Nat := 0
  scrapeTimeout : Nat := 0
  enableHttp2 : Option Bool := none
  tlsConfig : Option SafeTLSConfig := none
  oauth2 : Option OAuth2V1 := none
  authorization : Option SafeAuthorization := none
  relabelConfigs : List V1RelabelConfig := []
  metricRelabelConfigs : List V1RelabelConfig := []
deriving Repr, DecidableEq

/-- Models `v1.PodMonitor` (metadata plus the spec fields the generator
consumes). -/
structure PodMonitor where
  ns : String
  name : String
  jobLabel : String := ""
  podTargetLabels : List String := []
  selector : LabelSelector := {}
  namespaceSelector : NamespaceSelector := {}
deriving Repr, DecidableEq

/-- Models `config.ScrapeConfig` (output side, external Prometheus library;
the fields the generator fills).  Durations in seconds. -/
structure ScrapeConfig where
  jobName : String := ""
  honorTimestamps : Bool := false
  scrapeInterval : Nat := 0
  scrapeTimeout : Nat := 0
  metricsPath : String := ""
  scheme : String := ""
  httpClientConfig : HTTPClientConfig := {}
  relabelConfigs : List RelabelConfig := []
  metricRelabelConfigs : List RelabelConfig := []
  sdConfig : SDConfig := {}
deriving Repr, DecidableEq

/-- Decimal rendering of a natural number, as produced by Go's `%d`
formatting of the endpoint index and numeric ports. -/
def natToString (n : Nat) : String :=
  if n = 0 then "0"
  else String.mk ((Nat.digits 10 n).reverse.map Nat.digitChar)

/-- The stringified endpoint port used by the final `endpoint` relabel rule:
the port name, or the decimal port number. -/
def portString : PortSpec → String
  | .named s => s
  | .numeric n => natToString n

/-- Modelled from the spec: the job-name construction of
`generatePodMonitorConfig` (the scrape-config assembler is absent from
`src/`); the repository's `TestGeneratePodMonitorConfig` pins the format
`podMonitor/<namespace>/<name>/<endpointIndex>`. -/
def jobName (m : PodMonitor) (i : Nat) : String :=
  "podMonitor/" ++ m.ns ++ "/" ++ m.name ++ "/" ++ natToString i

/-! ### The implicit relabel rules (spec §4.3), as fed to `relabeler.Add`.
The emission code lives in the assembler `generatePodMonitorConfig`, absent
from `src/`; each rule below is modelled from the spec and pinned by the
expected chains of `TestGeneratePodMonitorConfig`. -/

/-- Modelled from the spec: the always-emitted pod-phase drop rule. -/
def phaseDropRule : RelabelConfig :=
  { sourceLabels := ["__meta_kubernetes_pod_phase"]
    regex := some "(Failed|Succeeded)"
    action := "drop" }

/-- Modelled from the spec: one keep rule per `matchLabels` entry `k = v`,
on the sanitized pod label and label-present meta labels, with regex
`(v);true`. -/
def matchLabelRule (kv : String × String) : RelabelConfig :=
  { sourceLabels :=
      ["__meta_kubernetes_pod_label_" ++ sanitizeLabelName kv.1,
       "__meta_kubernetes_pod_labelpresent_" ++ sanitizeLabelName kv.1]
    regex := some ("(" ++ kv.2 ++ ");true")
    action := "keep" }

/-- Modelled from the spec: the keep/drop rule for one match expression
(In/Exists keep, NotIn/DoesNotExist drop), with an alternation regex over
the expression's values. -/
def matchExpressionRule (e : MatchExpression) : RelabelConfig :=
  match e.operator with
  | .opIn =>
    { sourceLabels :=
        ["__meta_kubernetes_pod_label_" ++ sanitizeLabelName e.key,
         "__meta_kubernetes_pod_labelpresent_" ++ sanitizeLabelName e.key]
      regex := some ("(" ++ String.intercalate "|" e.values ++ ");true")
      action := "keep" }
  | .opNotIn =>
    { sourceLabels :=
        ["__meta_kubernetes_pod_label_" ++ sanitizeLabelName e.key,
         "__meta_kubernetes_pod_labelpresent_" ++ sanitizeLabelName e.key]
      regex := some ("(" ++ String.intercalate "|" e.values ++ ");true")
      action := "drop" }
  | .opExists =>
    { sourceLabels := ["__meta_kubernetes_pod_labelpresent_" ++ sanitizeLabelName e.key]
      regex := some "true"
      action := "keep" }
  | .opDoesNotExist =>
    { sourceLabels := ["__meta_kubernetes_pod_labelpresent_" ++ sanitizeLabelName e.key]
      regex := some "true"
      action := "drop" }

/-- Modelled from the spec: all selector-derived rules, match-labels first
then match-expressions. -/
def selectorRules (sel : LabelSelector) : List RelabelConfig :=
  sel.matchLabels.map matchLabelRule ++ sel.matchExpressions.map matchExpressionRule

/-- Modelled from the spec: the endpoint port keep rule — container-port
name meta label for a named port, container-port number meta label for a
numeric one. -/
def portRule : PortSpec → RelabelConfig
  | .named s =>
    { sourceLabels := ["__meta_kubernetes_pod_container_port_name"]
      regex := some s
      action := "keep" }
  | .numeric n =>
    { sourceLabels := ["__meta_kubernetes_pod_container_port_number"]
      regex := some (natToString n)
      action := "keep" }

/-- Modelled from the spec: the three always-emitted injection rules
(namespace, container, pod). -/
def injectRules : List RelabelConfig :=
  [{ sourceLabels := ["__meta_kubernetes_namespace"], targetLabel := "namespace" },
   { sourceLabels := ["__meta_kubernetes_pod_container_name"], targetLabel := "container" },
   { sourceLabels := ["__meta_kubernetes_pod_name"], targetLabel := "pod" }]

/-- Modelled from the spec: one rule per declared pod target label, guarded
by `(.+)` so empty values are dropped. -/
def podTargetLabelRule (l : String) : RelabelConfig :=
  { sourceLabels := ["__meta_kubernetes_pod_label_" ++ sanitizeLabelName l]
    targetLabel := (sanitizeLabelName l)
    regex := some "(.+)"
    replacement := "${1}" }

/-- Modelled from the spec: the static job replacement rule
(target `job`, replacement `<namespace>/<name>`). -/
def jobStaticRule (m : PodMonitor) : RelabelConfig :=
  { targetLabel := "job", replacement := m.ns ++ "/" ++ m.name }

/-- Modelled from the spec: the job-label override rule, emitted after the
static job rule when the monitor declares a job label. -/
def jobOverrideRule (m : PodMonitor) : RelabelConfig :=
  { sourceLabels := ["__meta_kubernetes_pod_label_" ++ sanitizeLabelName m.jobLabel]
    targetLabel := "job"
    regex := some "(.+)"
    replacement := "${1}" }

/-- Modelled from the spec: the always-last `endpoint` rule (static
replacement = port name or stringified number). -/
def endpointRule (ep : PodMetricsEndpoint) : RelabelConfig :=
  { targetLabel := "endpoint", replacement := portString ep.port }

/-- Modelled from the spec: the primary relabel chain of
`generatePodMonitorConfig` (absent from `src/`), §4.3 steps 1–10: the
implicit rules are added through `relabeler.Add` (with its defaulting pass)
in the fixed order pinned by `TestGeneratePodMonitorConfig`; the endpoint's
explicit rules are appended via `relabeler.addFromV1` (podmonitors variant,
which fails on a malformed regex), followed by the final `endpoint` rule. -/
def podMonitorRelabels (m : PodMonitor) (ep : PodMetricsEndpoint) :
    Except String (List RelabelConfig) :=
  match relabelerAddFromV1pm
      (relabelerAdd
        (relabelerAdd
          (relabelerAdd
            (relabelerAdd
              (relabelerAdd
                (relabelerAdd initRelabelings [phaseDropRule])
                (selectorRules m.selector))
              [portRule ep.port])
            injectRules)
          (m.podTargetLabels.map podTargetLabelRule))
        (if m.jobLabel = "" then [jobStaticRule m]
         else [jobStaticRule m, jobOverrideRule m]))
      ep.relabelConfigs with
  | .error e => .error e
  | .ok r => .ok (relabelerAdd r [endpointRule ep])

/-- Modelled from the spec: `generatePodMonitorConfig` (the scrape-config
assembler of the podmonitors generator, absent from `src/`; its behaviour is
pinned by `TestGeneratePodMonitorConfig`).  Fills the §4.5 defaults
(1 minute interval, 10 second timeout, `/metrics`, `http`, follow-redirects
true, HTTP/2 unless explicitly disabled), builds the job name, the SD config
via `generateK8SSDConfig`, the TLS/OAuth2/authorization credentials via the
podmonitors builders (which reject unsupported sources), and both relabel
chains; any sub-component error aborts this endpoint's compilation. -/
def generatePodMonitorConfig (client : ClientArguments) (m : PodMonitor)
    (ep : PodMetricsEndpoint) (i : Nat) : Except String ScrapeConfig :=
  match (match ep.tlsConfig with
         | none => (Except.ok {} : Except String TLSConfig)
         | some t => GenerateSafeTLSpm t) with
  | .error e => .error e
  | .ok tls =>
    match GenerateOAuth2pm ep.oauth2 with
    | .error e => .error e
    | .ok oauth2 =>
      match GenerateSafeAuthorizationPm ep.authorization with
      | .error e => .error e
      | .ok auth =>
        match podMonitorRelabels m ep with
        | .error e => .error e
        | .ok relabels =>
          match relabelerAddFromV1pm [] ep.metricRelabelConfigs with
          | .error e => .error e
          | .ok metricRelabels =>
            .ok
              { jobName := jobName m i
                honorTimestamps := true
                scrapeInterval := if ep.interval = 0 then 60 else ep.interval
                scrapeTimeout := if ep.scrapeTimeout = 0 then 10 else ep.scrapeTimeout
                metricsPath := if ep.path = "" then "/metrics" else ep.path
                scheme := if ep.scheme = "" then "http" else ep.scheme
                httpClientConfig :=
                  { followRedirects := true
                    enableHTTP2 :=
                      match ep.enableHttp2 with
                      | none => true
                      | some b => b
                    tlsConfig := tls
                    oauth2 := oauth2
                    authorization := auth }
                relabelConfigs := relabels
                metricRelabelConfigs := metricRelabels
                sdConfig := (generateK8SSDConfig client m.namespaceSelector m.ns "pod" none).1 }

/-! ## Concrete fixtures used by several claims (from the repository's
`TestGeneratePodMonitorConfig`) -/

/-- The "default" test monitor: namespace `operator`, name `podmonitor`,
everything else unset. -/
def monA : PodMonitor := { ns := "operator", name := "podmonitor" }

/-- The "default" test endpoint: one named port `metrics`. -/
def epA : PodMetricsEndpoint := { port := .named "metrics" }

/-- The "everything" test monitor: job label `abc`, two pod target labels,
a `foo=bar` match label, explicit namespace names. -/
def monB : PodMonitor :=
  { ns := "operator", name := "podmonitor", jobLabel := "abc"
    podTargetLabels := ["label_a", "label_b"]
    selector := { matchLabels := [("foo", "bar")] }
    namespaceSelector := { matchNames := ["ns_a", "ns_b"] } }

/-! ## Helper lemmas -/

/-- Lemma: `addFromV1pm` only ever appends to its accumulator. -/
theorem relabelerAddFromV1pm_ok_append (cs : List V1RelabelConfig) :
    ∀ (r out : List RelabelConfig), relabelerAddFromV1pm r cs = .ok out →
      ∃ l, out = r ++ l := by
  induction cs with
  | nil =>
    intro r out h
    simp only [relabelerAddFromV1pm] at h
    exact ⟨[], by simpa using h.symm⟩
  | cons c cs ih =>
    intro r out h
    simp only [relabelerAddFromV1pm] at h
    cases hc : convertFromV1pm c with
    | error e => rw [hc] at h; exact absurd h (by simp)
    | ok cfg =>
      rw [hc] at h
      obtain ⟨l, hl⟩ := ih (r ++ [cfg]) out h
      exact ⟨cfg :: l, by simpa using hl⟩

/-- Lemma: `addFromV1pm` succeeds when every rule's regex is unset or valid. -/
theorem relabelerAddFromV1pm_ok_of_valid (cs : List V1RelabelConfig)
    (hv : ∀ c ∈ cs, c.regex = "" ∨ regexValid c.regex = true) :
    ∀ r, ∃ l, relabelerAddFromV1pm r cs = .ok (r ++ l) := by
  induction cs with
  | nil => intro r; exact ⟨[], by simp [relabelerAddFromV1pm]⟩
  | cons c cs ih =>
    intro r
    have hc : ∃ cfg, convertFromV1pm c = .ok cfg := by
      rcases hv c (by simp) with h | h
      · exact ⟨convertFromV1crds c, by simp [convertFromV1pm, h]⟩
      · by_cases hr : c.regex = ""
        · exact ⟨convertFromV1crds c, by simp [convertFromV1pm, hr]⟩
        · refine ⟨{ convertFromV1crds c with regex := some c.regex }, ?_⟩
          simp [convertFromV1pm, hr, NewRegexp, h]
    obtain ⟨cfg, hcfg⟩ := hc
    obtain ⟨l, hl⟩ := ih (fun c hm => hv c (by simp [hm])) (r ++ [cfg])
    exact ⟨cfg :: l, by simp only [relabelerAddFromV1pm, hcfg]; simpa using hl⟩

/-- Lemma: `addFromV1pm` fails when some rule's regex is set and invalid. -/
theorem relabelerAddFromV1pm_error_of_invalid (cs : List V1RelabelConfig)
    (c : V1RelabelConfig) (hm : c ∈ cs) (hne : c.regex ≠ "")
    (hiv : regexValid c.regex = false) :
    ∀ r, ∃ e, relabelerAddFromV1pm r cs = .error e := by
  induction cs with
  | nil => cases hm
  | cons c0 cs ih =>
    intro r
    rcases List.mem_cons.mp hm with rfl | hmem
    · refine ⟨"error parsing regexp: " ++ c.regex, ?_⟩
      simp [relabelerAddFromV1pm, convertFromV1pm, hne, NewRegexp, hiv]
    · cases hc : convertFromV1pm c0 with
      | error e => exact ⟨e, by simp [relabelerAddFromV1pm, hc]⟩
      | ok cfg =>
        obtain ⟨e, he⟩ := ih hmem (r ++ [cfg])
        exact ⟨e, by simp [relabelerAddFromV1pm, hc, he]⟩

/-! ## C4 — namespace resolution -/

/-- C4: Namespace resolution: `any = true` gives the empty list; a
non-empty explicit name list gives those names; otherwise the monitor's own
namespace. -/
theorem namespaceResolution_correct (nsel : NamespaceSelector) (ns : String) :
    (nsel.any = true → getNamespacesFromNamespaceSelector nsel ns = []) ∧
    (nsel.any = false → nsel.matchNames ≠ [] →
      getNamespacesFromNamespaceSelector nsel ns = nsel.matchNames) ∧
    (nsel.any = false → nsel.matchNames = [] →
      getNamespacesFromNamespaceSelector nsel ns = [ns]) := by
  refine ⟨fun h => ?_, fun h h2 => ?_, fun h h2 => ?_⟩
  · simp [getNamespacesFromNamespaceSelector, h]
  · simp [getNamespacesFromNamespaceSelector, h, List.length_eq_zero, h2]
  · simp [getNamespacesFromNamespaceSelector, h, h2]

/-- Witness for C4 at the three concrete selector shapes. -/
theorem namespaceResolution_correct_witness :
    getNamespacesFromNamespaceSelector { any := true, matchNames := ["x"] } "mon" = [] ∧
    getNamespacesFromNamespaceSelector { matchNames := ["ns_a", "ns_b"] } "mon" = ["ns_a", "ns_b"] ∧
    getNamespacesFromNamespaceSelector {} "mon" = ["mon"] :=
  ⟨(namespaceResolution_correct _ _).1 rfl,
   (namespaceResolution_correct _ _).2.1 rfl (by decide),
   (namespaceResolution_correct _ _).2.2 rfl rfl⟩

/-! ## C5 — determinism -/

/-- C5: Compilation is deterministic: two runs on identical monitor,
endpoint and client settings produce identical output.  The compiler is a
pure function of its inputs, so equal inputs give equal scrape configs. -/
theorem compile_deterministic (c1 c2 : ClientArguments) (m1 m2 : PodMonitor)
    (e1 e2 : PodMetricsEndpoint) (i1 i2 : Nat)
    (hc : c1 = c2) (hm : m1 = m2) (he : e1 = e2) (hi : i1 = i2) :
    generatePodMonitorConfig c1 m1 e1 i1 = generatePodMonitorConfig c2 m2 e2 i2 := by
  subst hc; subst hm; subst he; subst hi; rfl

/-- Witness for C5 at the "default" test fixture. -/
theorem compile_deterministic_witness :
    generatePodMonitorConfig {} monA epA 0 = generatePodMonitorConfig {} monA epA 0 :=
  compile_deterministic {} {} monA monA epA epA 0 0 rfl rfl rfl rfl

/-! ## Injectivity of the decimal job-name index -/

/-- Lemma: `Nat.digitChar` is injective below 16. -/
theorem digitChar_injOn {a b : Nat} (ha : a < 16) (hb : b < 16)
    (h : Nat.digitChar a = Nat.digitChar b) : a = b := by
  have hall : ∀ a < 16, ∀ b < 16, Nat.digitChar a = Nat.digitChar b → a = b := by decide
  exact hall a ha b hb h

/-- Mapping `Nat.digitChar` over lists of digits below 16 is injective. -/
theorem map_digitChar_inj : ∀ (l1 l2 : List Nat),
    (∀ x ∈ l1, x < 16) → (∀ x ∈ l2, x < 16) →
    l1.map Nat.digitChar = l2.map Nat.digitChar → l1 = l2
  | [], [], _, _, _ => rfl
  | [], _ :: _, _, _, h => by simp at h
  | _ :: _, [], _, _, h => by simp at h
  | a :: l1, b :: l2, h1, h2, h => by
    simp only [List.map_cons, List.cons.injEq] at h
    have hab := digitChar_injOn (h1 a (by simp)) (h2 b (by simp)) h.1
    subst hab
    rw [map_digitChar_inj l1 l2 (fun x hx => h1 x (by simp [hx]))
      (fun x hx => h2 x (by simp [hx])) h.2]

/-- A map producing a singleton comes from a singleton. -/
theorem list_map_eq_singleton {α β : Type} (f : α → β) (l : List α) (a : β)
    (h : l.map f = [a]) : ∃ x, l = [x] ∧ f x = a := by
  cases l with
  | nil => simp at h
  | cons x t =>
    cases t with
    | nil => simp only [List.map_cons, List.map_nil, List.cons.injEq, and_true] at h
             exact ⟨x, rfl, h⟩
    | cons y t => simp at h

/-- Only zero renders as `"0"`. -/
theorem natToString_eq_zero {n : Nat} (h : natToString n = "0") : n = 0 := by
  by_contra hn
  unfold natToString at h
  rw [if_neg hn] at h
  have hdata : (Nat.digits 10 n).reverse.map Nat.digitChar = ['0'] := by
    have := congrArg String.data h
    simpa using this
  obtain ⟨d, hrev, hd⟩ := list_map_eq_singleton _ _ _ hdata
  have hdig : Nat.digits 10 n = [d] := by
    have := congrArg List.reverse hrev
    simpa using this
  have hd10 : d < 10 := Nat.digits_lt_base (by norm_num)
    (by rw [hdig]; exact List.mem_singleton.mpr rfl)
  have hd0 : d = 0 := digitChar_injOn (by omega) (by norm_num) hd
  have : n = Nat.ofDigits 10 (Nat.digits 10 n) := (Nat.ofDigits_digits 10 n).symm
  rw [hdig, hd0] at this
  simp [Nat.ofDigits] at this
  exact hn this

/-- Decimal rendering of naturals is injective. -/
theorem natToString_inj {i j : Nat} (h : natToString i = natToString j) : i = j := by
  by_cases hi : i = 0 <;> by_cases hj : j = 0
  · rw [hi, hj]
  · exfalso
    have : natToString j = "0" := by rw [← h, hi]; rfl
    exact hj (natToString_eq_zero this)
  · exfalso
    have : natToString i = "0" := by rw [h, hj]; rfl
    exact hi (natToString_eq_zero this)
  · unfold natToString at h
    rw [if_neg hi, if_neg hj] at h
    have hmaps : (Nat.digits 10 i).reverse.map Nat.digitChar =
        (Nat.digits 10 j).reverse.map Nat.digitChar := by
      have := congrArg String.data h
      simpa using this
    have hrev := map_digitChar_inj _ _
      (fun x hx => by
        have : x ∈ Nat.digits 10 i := List.mem_reverse.mp hx
        have := Nat.digits_lt_base (by norm_num) this
        omega)
      (fun x hx => by
        have : x ∈ Nat.digits 10 j := List.mem_reverse.mp hx
        have := Nat.digits_lt_base (by norm_num) this
        omega)
      hmaps
    have hdig : Nat.digits 10 i = Nat.digits 10 j := by
      have := congrArg List.reverse hrev
      simpa using this
    exact Nat.digits.injective 10 hdig

/-- Distinct endpoint indices give distinct job names for the same monitor. -/
theorem jobName_inj (m : PodMonitor) {i j : Nat} (hij : i ≠ j) :
    jobName m i ≠ jobName m j := by
  intro h
  apply hij
  apply natToString_inj
  have hd := congrArg String.data h
  simp only [jobName, String.data_append] at hd
  exact String.ext (List.append_cancel_left hd)

/-! ## Chain structure -/

/-- Indexing an append at the length of the left part. -/
theorem getElem?_append_cons {α : Type} (A C : List α) (x : α) :
    (A ++ x :: C)[A.length]? = some x := by
  rw [List.getElem?_append_right (le_refl _)]
  simp

/-- Every successful primary chain decomposes into the fixed implicit rules,
the converted explicit rules, and the final `endpoint` rule, in emission
order. -/
theorem podMonitorRelabels_ok_shape (m : PodMonitor) (ep : PodMetricsEndpoint)
    (chain : List RelabelConfig) (h : podMonitorRelabels m ep = .ok chain) :
    ∃ extra, chain =
      initRelabelings
      ++ [addDefaults phaseDropRule]
      ++ (selectorRules m.selector).map addDefaults
      ++ [addDefaults (portRule ep.port)]
      ++ injectRules.map addDefaults
      ++ (m.podTargetLabels.map podTargetLabelRule).map addDefaults
      ++ [addDefaults (jobStaticRule m)]
      ++ (if m.jobLabel = "" then [] else [addDefaults (jobOverrideRule m)])
      ++ extra
      ++ [addDefaults (endpointRule ep)] := by
  unfold podMonitorRelabels at h
  split at h
  · exact absurd h (by simp)
  · rename_i r8 heq
    obtain ⟨l, hl⟩ := relabelerAddFromV1pm_ok_append _ _ _ heq
    refine ⟨l, ?_⟩
    cases h
    subst hl
    by_cases hjl : m.jobLabel = "" <;>
      simp [relabelerAdd, hjl, List.append_assoc]

/-- Two adjacent elements of a middle segment are found at adjacent
indices. -/
theorem exists_indices_append {α : Type} (A B : List α) (x y : α) :
    ∃ (j k : Nat), j < k ∧ (A ++ x :: y :: B)[j]? = some x ∧ (A ++ x :: y :: B)[k]? = some y := by
  refine ⟨A.length, A.length + 1, by omega, getElem?_append_cons A _ x, ?_⟩
  rw [List.append_cons A x (y :: B)]
  have := getElem?_append_cons (A ++ [x]) B y
  simpa using this

/-! ## C1 — order invariant of the primary relabel chain -/

/-- C1: For every successfully compiled endpoint: the chain begins with
the rule mapping source `[job]` to `__tmp_prometheus_job_name`; it ends with
the rule whose target label is `endpoint`; and when the monitor declares a
job-label override, the override rule targeting `job` appears strictly
after the static job-replacement rule targeting `job`. -/
theorem relabelChain_order (m : PodMonitor) (ep : PodMetricsEndpoint)
    (chain : List RelabelConfig) (h : podMonitorRelabels m ep = .ok chain) :
    chain.head? = some (addDefaults
      { sourceLabels := ["job"], targetLabel := "__tmp_prometheus_job_name" }) ∧
    (∃ c, chain.getLast? = some c ∧ c.targetLabel = "endpoint") ∧
    (m.jobLabel ≠ "" → ∃ (js jo : Nat), js < jo ∧
      chain[js]? = some (addDefaults (jobStaticRule m)) ∧
      chain[jo]? = some (addDefaults (jobOverrideRule m))) := by
  obtain ⟨extra, hch⟩ := podMonitorRelabels_ok_shape m ep chain h
  subst hch
  refine ⟨?_, ⟨addDefaults (endpointRule ep), List.getLast?_concat _, rfl⟩, ?_⟩
  · simp [initRelabelings, relabelerAdd]
  · intro hne
    rw [if_neg hne]
    have hre :
        initRelabelings ++ [addDefaults phaseDropRule] ++
          (selectorRules m.selector).map addDefaults ++ [addDefaults (portRule ep.port)] ++
          injectRules.map addDefaults ++
          (m.podTargetLabels.map podTargetLabelRule).map addDefaults ++
          [addDefaults (jobStaticRule m)] ++ [addDefaults (jobOverrideRule m)] ++
          extra ++ [addDefaults (endpointRule ep)]
        =
        (initRelabelings ++ [addDefaults phaseDropRule] ++
          (selectorRules m.selector).map addDefaults ++ [addDefaults (portRule ep.port)] ++
          injectRules.map addDefaults ++
          (m.podTargetLabels.map podTargetLabelRule).map addDefaults) ++
          addDefaults (jobStaticRule m) :: addDefaults (jobOverrideRule m) ::
          (extra ++ [addDefaults (endpointRule ep)]) := by
      simp [List.append_assoc]
    rw [hre]
    exact exists_indices_append _ _ _ _

/-- The concrete primary chain of the "everything"-style fixture. -/
def chainB : List RelabelConfig := (podMonitorRelabels monB epA).toOption.getD []

/-- Witness for C1 at the "everything"-style fixture (job label `abc`). -/
theorem relabelChain_order_witness :
    chainB.head? = some (addDefaults
      { sourceLabels := ["job"], targetLabel := "__tmp_prometheus_job_name" }) ∧
    (∃ c, chainB.getLast? = some c ∧ c.targetLabel = "endpoint") ∧
    (∃ (js jo : Nat), js < jo ∧
      chainB[js]? = some (addDefaults (jobStaticRule monB)) ∧
      chainB[jo]? = some (addDefaults (jobOverrideRule monB))) :=
  ⟨(relabelChain_order monB epA chainB (by rfl)).1,
   (relabelChain_order monB epA chainB (by rfl)).2.1,
   (relabelChain_order monB epA chainB (by rfl)).2.2 (by decide)⟩

/-! ## C3 — job names and the "default" scenario -/

/-- The eight compiled rules expected for the "default" scenario, in order
job-temp, phase-drop, port-keep, namespace-inject, container-inject,
pod-inject, job-static, endpoint-static (from the repository's test). -/
def expectedChainA : List RelabelConfig :=
  [{ sourceLabels := ["job"], separator := ";", regex := some "(.*)",
     targetLabel := "__tmp_prometheus_job_name", replacement := "$1", action := "replace" },
   { sourceLabels := ["__meta_kubernetes_pod_phase"], separator := ";",
     regex := some "(Failed|Succeeded)", replacement := "$1", action := "drop" },
   { sourceLabels := ["__meta_kubernetes_pod_container_port_name"], separator := ";",
     regex := some "metrics", replacement := "$1", action := "keep" },
   { sourceLabels := ["__meta_kubernetes_namespace"], separator := ";", regex := some "(.*)",
     targetLabel := "namespace", replacement := "$1", action := "replace" },
   { sourceLabels := ["__meta_kubernetes_pod_container_name"], separator := ";",
     regex := some "(.*)", targetLabel := "container", replacement := "$1",
     action := "replace" },
   { sourceLabels := ["__meta_kubernetes_pod_name"], separator := ";", regex := some "(.*)",
     targetLabel := "pod", replacement := "$1", action := "replace" },
   { separator := ";", regex := some "(.*)", targetLabel := "job",
     replacement := "operator/podmonitor", action := "replace" },
   { separator := ";", regex := some "(.*)", targetLabel := "endpoint",
     replacement := "metrics", action := "replace" }]

/-- The claim computes the job name as `pod/operator/podmonitor/0` from the
discovery role; the generator actually prefixes the monitor kind
`podMonitor`, as the repository's own test expects. -/
theorem jobName_role_counterexample :
    (generatePodMonitorConfig {} monA epA 0).toOption.map ScrapeConfig.jobName =
      some "podMonitor/operator/podmonitor/0" ∧
    ("podMonitor/operator/podmonitor/0" : String) ≠ "pod/operator/podmonitor/0" :=
  ⟨rfl, by decide⟩

/-- C3 (amended): The generated job name is
`podMonitor/<namespace>/<name>/<endpointIndex>` — the monitor kind, not the
discovery role — and is distinct for distinct endpoint indices; for the
"default" scenario the job name is `podMonitor/operator/podmonitor/0`, the
SD namespaces are `["operator"]`, and the relabel chain is exactly the eight
expected rules in order. -/
theorem jobName_and_scenarioA :
    (∀ (client : ClientArguments) (m : PodMonitor) (ep : PodMetricsEndpoint) (i : Nat)
       (cfg : ScrapeConfig), generatePodMonitorConfig client m ep i = .ok cfg →
       cfg.jobName = "podMonitor/" ++ m.ns ++ "/" ++ m.name ++ "/" ++ natToString i) ∧
    (∀ (m : PodMonitor) (i j : Nat), i ≠ j → jobName m i ≠ jobName m j) ∧
    ((generatePodMonitorConfig {} monA epA 0).toOption.map ScrapeConfig.jobName =
       some "podMonitor/operator/podmonitor/0") ∧
    ((generatePodMonitorConfig {} monA epA 0).toOption.map
        (fun c => c.sdConfig.namespaces) = some ["operator"]) ∧
    ((generatePodMonitorConfig {} monA epA 0).toOption.map ScrapeConfig.relabelConfigs =
       some expectedChainA) := by
  refine ⟨?_, fun m i j hij => jobName_inj m hij, rfl, rfl, rfl⟩
  intro client m ep i cfg h
  unfold generatePodMonitorConfig at h
  split at h
  · exact absurd h (by simp)
  · split at h
    · exact absurd h (by simp)
    · split at h
      · exact absurd h (by simp)
      · split at h
        · exact absurd h (by simp)
        · split at h
          · exact absurd h (by simp)
          · cases h
            rfl

/-- The concrete compiled config of the "default" scenario. -/
def cfgA : ScrapeConfig := (generatePodMonitorConfig {} monA epA 0).toOption.getD {}

/-- Witness for C3: the hypotheses hold at the "default" scenario and at
indices 0 ≠ 1. -/
theorem jobName_and_scenarioA_witness :
    cfgA.jobName = "podMonitor/" ++ monA.ns ++ "/" ++ monA.name ++ "/" ++ natToString 0 ∧
    jobName monA 0 ≠ jobName monA 1 :=
  ⟨jobName_and_scenarioA.1 {} monA epA 0 cfgA (by rfl),
   jobName_and_scenarioA.2.1 monA 0 1 (by decide)⟩

/-! ## C2 — field defaulting -/

/-- The "default" endpoint extended with one explicit relabel rule whose
fields are all unset. -/
def epC2 : PodMetricsEndpoint := { port := .named "metrics", relabelConfigs := [{}] }

/-- An explicit rule with all fields unset compiles (at position 7 of the
chain, between the static job rule and the endpoint rule) to a rule whose
action, separator, regex and replacement are still unset — not to the
claimed `replace` / `";"` / match-all / `"$1"` defaults: `addFromV1`
appends explicit rules without the defaulting pass. -/
theorem unsetFields_default_counterexample :
    ((podMonitorRelabels monA epC2).toOption.getD [])[7]? = some ({} : RelabelConfig) ∧
    ({} : RelabelConfig).action ≠ "replace" ∧ ({} : RelabelConfig).separator ≠ ";" ∧
    ({} : RelabelConfig).regex = none ∧ ({} : RelabelConfig).replacement ≠ "$1" :=
  ⟨rfl, by decide, by decide, rfl, by decide⟩

/-- C2 (amended): Every implicit rule — those passed through
`relabeler.Add` — has its unset fields resolved to action = replace,
separator = ";", regex = match-all, replacement = "$1"; the explicit rules
taken from the additional-relabelings and metric-relabelings lists go
through `addFromV1` instead, which copies them verbatim and leaves unset
fields unset. -/
theorem unsetFields_defaulting :
    (∀ cfg : RelabelConfig,
      (cfg.action = "" → (addDefaults cfg).action = "replace") ∧
      (cfg.separator = "" → (addDefaults cfg).separator = ";") ∧
      (cfg.regex = none → (addDefaults cfg).regex = some "(.*)") ∧
      (cfg.replacement = "" → (addDefaults cfg).replacement = "$1")) ∧
    (∀ c : V1RelabelConfig,
      (c.action = "" → (convertFromV1crds c).action = "") ∧
      (c.separator = "" → (convertFromV1crds c).separator = "") ∧
      (c.regex = "" → (convertFromV1crds c).regex = none) ∧
      (c.replacement = "" → (convertFromV1crds c).replacement = "") ∧
      (c.regex = "" → convertFromV1pm c = .ok (convertFromV1crds c))) := by
  constructor
  · intro cfg
    refine ⟨fun h => ?_, fun h => ?_, fun h => ?_, fun h => ?_⟩ <;>
      simp [addDefaults, h, DefaultRelabelConfig]
  · intro c
    refine ⟨fun h => ?_, fun h => ?_, fun h => ?_, fun h => ?_, fun h => ?_⟩ <;>
      simp [convertFromV1crds, convertFromV1pm, h]

/-- Witness for C2 at the all-unset rule. -/
theorem unsetFields_defaulting_witness :
    (addDefaults {}).action = "replace" ∧
    (addDefaults {}).separator = ";" ∧
    (addDefaults {}).regex = some "(.*)" ∧
    (addDefaults {}).replacement = "$1" ∧
    (convertFromV1crds {}).action = "" ∧
    convertFromV1pm {} = .ok (convertFromV1crds {}) :=
  ⟨(unsetFields_defaulting.1 {}).1 rfl,
   (unsetFields_defaulting.1 {}).2.1 rfl,
   (unsetFields_defaulting.1 {}).2.2.1 rfl,
   (unsetFields_defaulting.1 {}).2.2.2 rfl,
   (unsetFields_defaulting.2 {}).1 rfl,
   (unsetFields_defaulting.2 {}).2.2.2.2 rfl⟩

/-! ## C6 — malformed regex handling -/

/-- An explicit rule with a malformed regex (unmatched parenthesis). -/
def badRule : V1RelabelConfig := { sourceLabels := ["__address__"], regex := "(" }

/-- An endpoint carrying the malformed rule. -/
def epBad : PodMetricsEndpoint := { port := .named "metrics", relabelConfigs := [badRule] }

/-- In the kubernetes_crds generator, an endpoint rule with a malformed
regex does **not** fail compilation: `addFromV1` has no error path there —
the parse failure is logged and the rule is appended with its regex left
unset. -/
theorem malformedRegex_counterexample :
    regexValid "(" = false ∧
    relabelerAddFromV1crds [] [badRule] =
      [{ sourceLabels := ["__address__"], regex := none }] :=
  ⟨rfl, rfl⟩

/-- C6 (amended): In the podmonitors generator a malformed regex in an
explicit rule is a hard error: no scrape config is produced for that
endpoint.  In the kubernetes_crds generator the parse failure is only
logged: every rule is appended (none dropped, no error), with the malformed
rule's regex left unset rather than replaced by a permissive fallback. -/
theorem malformedRegex_handling :
    (∀ (client : ClientArguments) (m : PodMonitor) (ep : PodMetricsEndpoint) (i : Nat),
       (∃ c ∈ ep.relabelConfigs, c.regex ≠ "" ∧ regexValid c.regex = false) →
       ∃ e, generatePodMonitorConfig client m ep i = .error e) ∧
    (∀ (r : List RelabelConfig) (cs : List V1RelabelConfig),
       (relabelerAddFromV1crds r cs).length = r.length + cs.length) ∧
    (∀ c : V1RelabelConfig, c.regex ≠ "" → regexValid c.regex = false →
       (convertFromV1crds c).regex = none) := by
  refine ⟨?_, ?_, ?_⟩
  · rintro client m ep i ⟨c, hc, hne, hiv⟩
    unfold generatePodMonitorConfig
    split
    · exact ⟨_, rfl⟩
    · split
      · exact ⟨_, rfl⟩
      · split
        · exact ⟨_, rfl⟩
        · have hrel : ∃ e, podMonitorRelabels m ep = .error e := by
            unfold podMonitorRelabels
            obtain ⟨e, he⟩ :=
              relabelerAddFromV1pm_error_of_invalid ep.relabelConfigs c hc hne hiv _
            rw [he]
            exact ⟨e, rfl⟩
          obtain ⟨e, he⟩ := hrel
          rw [he]
          exact ⟨e, rfl⟩
  · intro r cs
    simp [relabelerAddFromV1crds]
  · intro c hne hiv
    simp [convertFromV1crds, parseRegexp, NewRegexp, hne, hiv]

/-- Witness for C6: the malformed-rule endpoint errors in the podmonitors
generator, while the kubernetes_crds conversion keeps the rule. -/
theorem malformedRegex_handling_witness :
    (∃ e, generatePodMonitorConfig {} monA epBad 0 = .error e) ∧
    (relabelerAddFromV1crds [] [badRule]).length = ([] : List RelabelConfig).length + 1 ∧
    (convertFromV1crds badRule).regex = none :=
  ⟨malformedRegex_handling.1 {} monA epBad 0
     ⟨badRule, List.mem_singleton.mpr rfl, by decide, rfl⟩,
   malformedRegex_handling.2.1 [] [badRule],
   malformedRegex_handling.2.2 badRule (by decide) rfl⟩

/-! ## C7 — unsupported credential sources -/

/-- C7: In the podmonitors generator, an endpoint referencing a
credential source the generator cannot yet implement — an OAuth2 source, an
authorization source, or a TLS CA/certificate/key reference — fails
compilation of that one endpoint with an error; an endpoint without such
references (and with well-formed explicit rules) compiles successfully, and
each endpoint's compilation is a separate application of the same pure
function, so siblings are unaffected. -/
theorem unsupportedCredentials_fail :
    (∀ (client : ClientArguments) (m : PodMonitor) (ep : PodMetricsEndpoint) (i : Nat),
       ep.oauth2 ≠ none ∨ ep.authorization ≠ none →
       ∃ e, generatePodMonitorConfig client m ep i = .error e) ∧
    (∀ (client : ClientArguments) (m : PodMonitor) (ep : PodMetricsEndpoint) (i : Nat)
       (t : SafeTLSConfig), ep.tlsConfig = some t →
       (t.ca.secret ≠ none ∨ t.ca.configMap ≠ none ∨ t.cert.secret ≠ none ∨
        t.cert.configMap ≠ none ∨ t.keySecret ≠ none) →
       ∃ e, generatePodMonitorConfig client m ep i = .error e) ∧
    (∀ (client : ClientArguments) (m : PodMonitor) (ep : PodMetricsEndpoint) (i : Nat),
       ep.oauth2 = none → ep.authorization = none → ep.tlsConfig = none →
       (∀ c ∈ ep.relabelConfigs, c.regex = "" ∨ regexValid c.regex = true) →
       (∀ c ∈ ep.metricRelabelConfigs, c.regex = "" ∨ regexValid c.regex = true) →
       ∃ cfg, generatePodMonitorConfig client m ep i = .ok cfg) := by
  refine ⟨?_, ?_, ?_⟩
  · intro client m ep i hor
    unfold generatePodMonitorConfig
    split
    · exact ⟨_, rfl⟩
    · rcases hor with h | h
      · obtain ⟨o, ho⟩ := Option.ne_none_iff_exists'.mp h
        have h2 : GenerateOAuth2pm ep.oauth2 = .error "oauth2 not supported yet" := by
          rw [ho]; rfl
        rw [h2]
        exact ⟨_, rfl⟩
      · split
        · exact ⟨_, rfl⟩
        · obtain ⟨a, ha⟩ := Option.ne_none_iff_exists'.mp h
          have h2 : GenerateSafeAuthorizationPm ep.authorization =
              .error "authorization not supported yet" := by
            rw [ha]; rfl
          rw [h2]
          exact ⟨_, rfl⟩
  · intro client m ep i t htl hunsup
    have htls : ∃ e, GenerateSafeTLSpm t = .error e := by
      unfold GenerateSafeTLSpm
      split
      · exact ⟨_, rfl⟩
      · split
        · exact ⟨_, rfl⟩
        · split
          · exact ⟨_, rfl⟩
          · rename_i h1 h2 h3
            exfalso
            rcases hunsup with h | h | h | h | h <;> simp_all
    obtain ⟨e, he⟩ := htls
    unfold generatePodMonitorConfig
    simp only [htl, he]
    exact ⟨e, rfl⟩
  · intro client m ep i ho ha ht hr hmr
    unfold generatePodMonitorConfig
    have h1 : ∃ rl, podMonitorRelabels m ep = .ok rl := by
      unfold podMonitorRelabels
      obtain ⟨l, hl⟩ := relabelerAddFromV1pm_ok_of_valid ep.relabelConfigs hr _
      rw [hl]
      exact ⟨_, rfl⟩
    obtain ⟨rl, hrl⟩ := h1
    obtain ⟨l2, hl2⟩ := relabelerAddFromV1pm_ok_of_valid ep.metricRelabelConfigs hmr []
    simp only [ht, ho, ha, hrl, hl2, GenerateOAuth2pm, GenerateSafeAuthorizationPm]
    exact ⟨_, rfl⟩

/-- An endpoint with an OAuth2 reference. -/
def epOAuth : PodMetricsEndpoint :=
  { port := .named "metrics", oauth2 := some { clientSecret := ⟨"oauth-secret", "secret"⟩ } }

/-- An endpoint with a TLS CA secret reference. -/
def epTLSCA : PodMetricsEndpoint :=
  { port := .named "metrics", tlsConfig := some { ca := { secret := some ⟨"ca-secret", "ca"⟩ } } }

/-- Witness for C7: OAuth2 and TLS-CA endpoints fail, the plain sibling
endpoint succeeds. -/
theorem unsupportedCredentials_fail_witness :
    (∃ e, generatePodMonitorConfig {} monA epOAuth 0 = .error e) ∧
    (∃ e, generatePodMonitorConfig {} monA epTLSCA 1 = .error e) ∧
    (∃ cfg, generatePodMonitorConfig {} monA epA 2 = .ok cfg) :=
  ⟨unsupportedCredentials_fail.1 {} monA epOAuth 0 (Or.inl (by decide)),
   unsupportedCredentials_fail.2.1 {} monA epTLSCA 1 { ca := { secret := some ⟨"ca-secret", "ca"⟩ } }
     rfl (Or.inl (by decide)),
   unsupportedCredentials_fail.2.2 {} monA epA 2 rfl rfl rfl
     (by intro c hc; cases hc) (by intro c hc; cases hc)⟩

/-! ## C8 — secret references resolve to file paths, not raw bytes -/

/-- C8: In the kubernetes_crds builders, every resolved secret or
config-map reference surfaces only as a deterministic file path: the TLS
CA/cert/key files and the authorization credentials file are either empty or
the path computed from the reference's coordinates, and the OAuth2 client
secret is emitted only as a file path (its inline field stays empty); the
OAuth2 output depends on the secret store only through the client
identifier, which alone is fetched as an inline value. -/
theorem secretRefs_as_paths :
    (∀ (ns : String) (tls : SafeTLSConfig),
      ((generateSafeTLScrds ns tls).caFile = "" ∨
        (∃ s, tls.ca.secret = some s ∧
          (generateSafeTLScrds ns tls).caFile = SecretFilename ns s.name s.key) ∨
        (∃ c, tls.ca.configMap = some c ∧
          (generateSafeTLScrds ns tls).caFile = ConfigMapFilename ns c.name c.key)) ∧
      ((generateSafeTLScrds ns tls).certFile = "" ∨
        (∃ s, tls.cert.secret = some s ∧
          (generateSafeTLScrds ns tls).certFile = SecretFilename ns s.name s.key) ∨
        (∃ c, tls.cert.configMap = some c ∧
          (generateSafeTLScrds ns tls).certFile = ConfigMapFilename ns c.name c.key)) ∧
      ((generateSafeTLScrds ns tls).keyFile = "" ∨
        (∃ s, tls.keySecret = some s ∧
          (generateSafeTLScrds ns tls).keyFile = SecretFilename ns s.name s.key))) ∧
    (∀ (fs : SecretFS) (o : OAuth2V1) (ns : String) (oa : OAuth2Out),
      generateOAuth2crds fs (some o) ns = some oa →
      oa.clientSecret = "" ∧
      oa.clientSecretFile = SecretFilename ns o.clientSecret.name o.clientSecret.key) ∧
    (∀ (fs fs' : SecretFS) (o : Option OAuth2V1) (ns : String),
      (generateOAuth2crds fs o ns).map (fun r => { r with clientID := "" }) =
        (generateOAuth2crds fs' o ns).map (fun r => { r with clientID := "" })) ∧
    (∀ (a : SafeAuthorization) (ns : String) (az : Authorization),
      (generateSafeAuthorizationCrds (some a) ns).1 = some az →
      az.credentials = "" ∧
      (az.credentialsFile = "" ∨
        ∃ c, a.credentials = some c ∧
          az.credentialsFile = SecretFilename ns c.name c.key)) ∧
    (∀ (o : OAuth2V1) (ns : String) (fs : SecretFS) (s : SecretKeySelector) (v : String),
      o.clientID.secret = some s → fs.readSecret ns s.name s.key = .ok v →
      ∃ oa, generateOAuth2crds fs (some o) ns = some oa ∧ oa.clientID = v) := by
  refine ⟨?_, ?_, ?_, ?_, ?_⟩
  · intro ns tls
    obtain ⟨isv, ⟨cas, cac⟩, ⟨crs, crc⟩, ks, sn⟩ := tls
    rcases cas with _ | s1 <;> rcases cac with _ | c1 <;>
      rcases crs with _ | s2 <;> rcases crc with _ | c2 <;>
      rcases ks with _ | s3 <;> by_cases hsn : sn = "" <;>
      simp [generateSafeTLScrds, hsn]
  · intro fs o ns oa h
    rcases hcid : o.clientID.secret with _ | s
    · rcases hcm : o.clientID.configMap with _ | c
      · simp [generateOAuth2crds, hcid, hcm] at h
        subst h
        exact ⟨rfl, rfl⟩
      · simp [generateOAuth2crds, hcid, hcm] at h
        rcases fs.readConfigMap ns c.name c.key with e | v <;>
          (subst h; exact ⟨rfl, rfl⟩)
    · simp [generateOAuth2crds, hcid] at h
      rcases fs.readSecret ns s.name s.key with e | v <;>
        (subst h; exact ⟨rfl, rfl⟩)
  · intro fs fs' o ns
    cases o with
    | none => rfl
    | some o =>
      rcases hcid : o.clientID.secret with _ | s
      · rcases hcm : o.clientID.configMap with _ | c
        · simp [generateOAuth2crds, hcid, hcm]
        · simp [generateOAuth2crds, hcid, hcm]
      · simp [generateOAuth2crds, hcid]
  · intro a ns az h
    rcases hcr : a.credentials with _ | c <;>
      by_cases hty : a.type = "" <;>
      simp [generateSafeAuthorizationCrds, hcr, hty] at h <;>
      subst h <;>
      simp [hcr]
  · intro o ns fs s v hcid hfetch
    refine ⟨?_, ?_, ?_⟩
    · exact { clientID := v
              clientSecretFile := SecretFilename ns o.clientSecret.name o.clientSecret.key
              tokenURL := o.tokenURL
              scopes := if o.scopes.length > 0 then o.scopes else []
              endpointParams := if o.endpointParams.length > 0 then o.endpointParams else [] }
    · simp [generateOAuth2crds, hcid, hfetch]
    · rfl

/-- A concrete secret store for the C8 witness. -/
def fsTest : SecretFS :=
  { readSecret := fun ns name key => .ok ("value-" ++ ns ++ "-" ++ name ++ "-" ++ key)
    readConfigMap := fun ns name key => .ok ("cmvalue-" ++ ns ++ "-" ++ name ++ "-" ++ key) }

/-- A concrete TLS input referencing a CA secret and a key secret. -/
def tlsTest : SafeTLSConfig :=
  { ca := { secret := some ⟨"ca-secret", "ca.crt"⟩ }, keySecret := some ⟨"key-secret", "tls.key"⟩ }

/-- A concrete OAuth2 input with a secret client identifier. -/
def oauthTest : OAuth2V1 :=
  { clientID := { secret := some ⟨"oauth", "client-id"⟩ }
    clientSecret := ⟨"oauth", "client-secret"⟩
    tokenURL := "https://auth.example/token" }

/-- Witness for C8 at the concrete store and references. -/
theorem secretRefs_as_paths_witness :
    ((generateSafeTLScrds "operator" tlsTest).caFile = "" ∨
      (∃ s, tlsTest.ca.secret = some s ∧
        (generateSafeTLScrds "operator" tlsTest).caFile =
          SecretFilename "operator" s.name s.key) ∨
      (∃ c, tlsTest.ca.configMap = some c ∧
        (generateSafeTLScrds "operator" tlsTest).caFile =
          ConfigMapFilename "operator" c.name c.key)) ∧
    ((generateOAuth2crds fsTest (some oauthTest) "operator").map
        (fun r => { r with clientID := "" }) =
      (generateOAuth2crds { readSecret := fun _ _ _ => .error "down",
                            readConfigMap := fun _ _ _ => .error "down" }
          (some oauthTest) "operator").map (fun r => { r with clientID := "" })) ∧
    (∃ oa, generateOAuth2crds fsTest (some oauthTest) "operator" = some oa ∧
      oa.clientID = "value-operator-oauth-client-id") :=
  ⟨(secretRefs_as_paths.1 "operator" tlsTest).1,
   secretRefs_as_paths.2.2.1 fsTest
     { readSecret := fun _ _ _ => .error "down", readConfigMap := fun _ _ _ => .error "down" }
     (some oauthTest) "operator",
   secretRefs_as_paths.2.2.2.2 oauthTest "operator" fsTest ⟨"oauth", "client-id"⟩
     "value-operator-oauth-client-id" rfl rfl⟩

/-! ## C9 — connection resolution -/

/-- C9: The SD connection resolves as: kubeconfig path when set (with
"both kubeconfig and API-server URL set" rejected one layer up by the
client-argument validation); otherwise, when an API-server URL is set, an
HTTP client config carrying over basic auth, bearer token and token file,
TLS, and authorization with its type defaulted to "Bearer" when unset;
otherwise an empty connection. -/
theorem connectionResolution :
    (∀ client : ClientArguments,
      client.apiServer ≠ none → client.kubeConfig ≠ "" →
      validateClientArguments client =
        .error "only one of api_server and kubeconfig_file can be set") ∧
    (∀ (client : ClientArguments) (nsel : NamespaceSelector) (ns role : String)
       (am : Option Bool),
      (client.kubeConfig ≠ "" →
        ((generateK8SSDConfig client nsel ns role am).1).kubeConfig = client.kubeConfig) ∧
      (∀ u, client.apiServer = some u →
        ((generateK8SSDConfig client nsel ns role am).1).apiServer = some u ∧
        ((generateK8SSDConfig client nsel ns role am).1).httpClientConfig.basicAuth =
          client.httpClientConfig.basicAuth ∧
        ((generateK8SSDConfig client nsel ns role am).1).httpClientConfig.bearerToken =
          client.httpClientConfig.bearerToken ∧
        ((generateK8SSDConfig client nsel ns role am).1).httpClientConfig.bearerTokenFile =
          client.httpClientConfig.bearerTokenFile ∧
        ((generateK8SSDConfig client nsel ns role am).1).httpClientConfig.tlsConfig =
          client.httpClientConfig.tlsConfig ∧
        (∀ a, client.httpClientConfig.authorization = some a →
          ((generateK8SSDConfig client nsel ns role am).1).httpClientConfig.authorization =
            some (if a.type = "" then { a with type := "Bearer" } else a))) ∧
      (client.apiServer = none → client.kubeConfig = "" →
        ((generateK8SSDConfig client nsel ns role am).1).kubeConfig = "" ∧
        ((generateK8SSDConfig client nsel ns role am).1).apiServer = none ∧
        ((generateK8SSDConfig client nsel ns role am).1).httpClientConfig = {})) := by
  constructor
  · intro client h1 h2
    simp [validateClientArguments, h1, h2]
  · intro client nsel ns role am
    obtain ⟨apiS, kc, hcc⟩ := client
    refine ⟨fun hkc => ?_, fun u hu => ?_, fun hapi hkc => ?_⟩
    · rcases apiS with _ | u <;>
        rcases am with _ | node <;>
        simp [generateK8SSDConfig, hkc]
    · cases hu
      rcases hauth : hcc.authorization with _ | a <;>
        rcases am with _ | node <;>
        by_cases hkc : kc = "" <;>
        simp [generateK8SSDConfig, hauth, hkc]
    · cases hapi
      cases hkc
      rcases am with _ | node <;>
        simp [generateK8SSDConfig, apply_ite SDConfig.kubeConfig,
          apply_ite SDConfig.apiServer, apply_ite SDConfig.httpClientConfig]

/-- A client-argument fixture with an API server, a bearer token, and an
authorization whose type is unset. -/
def clientApi : ClientArguments :=
  { apiServer := some "https://api.example:6443"
    httpClientConfig := { bearerToken := "tok", authorization := some { type := "" } } }

/-- Witness for C9 at three concrete client settings. -/
theorem connectionResolution_witness :
    validateClientArguments { apiServer := some "u", kubeConfig := "/root/.kube/config" } =
      .error "only one of api_server and kubeconfig_file can be set" ∧
    ((generateK8SSDConfig { kubeConfig := "/root/.kube/config" } {} "operator" "pod" none).1).kubeConfig =
      "/root/.kube/config" ∧
    ((generateK8SSDConfig clientApi {} "operator" "pod" none).1).apiServer =
      some "https://api.example:6443" ∧
    ((generateK8SSDConfig clientApi {} "operator" "pod" none).1).httpClientConfig.authorization =
      some { type := "Bearer", credentials := "", credentialsFile := "" } ∧
    ((generateK8SSDConfig {} {} "operator" "pod" none).1).httpClientConfig = {} :=
  ⟨connectionResolution.1 { apiServer := some "u", kubeConfig := "/root/.kube/config" }
     (by decide) (by decide),
   (connectionResolution.2 { kubeConfig := "/root/.kube/config" } {} "operator" "pod" none).1
     (by decide),
   ((connectionResolution.2 clientApi {} "operator" "pod" none).2.1
     "https://api.example:6443" rfl).1,
   (by
     have h := ((connectionResolution.2 clientApi {} "operator" "pod" none).2.1
       "https://api.example:6443" rfl).2.2.2.2.2 { type := "" } rfl
     simpa using h),
   ((connectionResolution.2 {} {} "operator" "pod" none).2.2 rfl rfl).2.2⟩

/-! ## C10 — compilation mutates its input through the authorization pointer -/

/-- A client-argument fixture whose authorization type is unset. -/
def argsC10 : ClientArguments :=
  { apiServer := some "https://api.example"
    httpClientConfig := { authorization := some { type := "" } } }

/-- Compilation does write through into the input structures: after
`generateK8SSDConfig`, the shared client settings' authorization type has
been changed to "Bearer" (the `hCfg.Authorization.Type = "Bearer"`
assignment acts through a pointer held by the input), and the
kubernetes_crds `generateSafeAuthorization` likewise rewrites the monitor's
`SafeAuthorization`. -/
theorem inputMutation_counterexample :
    (generateK8SSDConfig argsC10 {} "operator" "pod" none).2 ≠ argsC10 ∧
    ((generateK8SSDConfig argsC10 {} "operator" "pod" none).2).httpClientConfig.authorization =
      some { type := "Bearer" } ∧
    (generateSafeAuthorizationCrds (some { type := "" }) "operator").2 ≠
      some { type := "" } :=
  ⟨by decide, by decide, by decide⟩

/-- C10 (amended): Compilation leaves its inputs unchanged EXCEPT
for the Bearer write-through: `generateK8SSDConfig` returns the client
settings unchanged unless an API-server URL is set and the authorization
type is unset, in which case exactly that one field becomes "Bearer"; the
kubernetes_crds `generateSafeAuthorization` returns the monitor's
authorization unchanged unless its type was unset, in which case exactly
that one field becomes "Bearer". -/
theorem inputMutation_frame :
    (∀ (client : ClientArguments) (nsel : NamespaceSelector) (ns role : String)
       (am : Option Bool),
      (client.apiServer = none → (generateK8SSDConfig client nsel ns role am).2 = client) ∧
      (client.httpClientConfig.authorization = none →
        (generateK8SSDConfig client nsel ns role am).2 = client) ∧
      (∀ a, client.httpClientConfig.authorization = some a → a.type ≠ "" →
        (generateK8SSDConfig client nsel ns role am).2 = client) ∧
      (∀ u a, client.apiServer = some u → client.httpClientConfig.authorization = some a →
        a.type = "" →
        (generateK8SSDConfig client nsel ns role am).2 =
          { client with httpClientConfig :=
              { client.httpClientConfig with
                  authorization := some { a with type := "Bearer" } } })) ∧
    (∀ (a : SafeAuthorization) (ns : String),
      (a.type ≠ "" → (generateSafeAuthorizationCrds (some a) ns).2 = some a) ∧
      (a.type = "" → (generateSafeAuthorizationCrds (some a) ns).2 =
        some { a with type := "Bearer" })) := by
  constructor
  · intro client nsel ns role am
    obtain ⟨apiS, kc, hcc⟩ := client
    refine ⟨fun hapi => ?_, fun hauth => ?_, fun a hauth hty => ?_, fun u a hu hauth hty => ?_⟩
    · cases hapi
      rcases am with _ | node <;> by_cases hkc : kc = "" <;>
        simp [generateK8SSDConfig, hkc]
    · rcases apiS with _ | u <;> rcases am with _ | node <;>
        by_cases hkc : kc = "" <;>
        simp_all [generateK8SSDConfig] <;>
        rw [← hauth]
    · rcases apiS with _ | u <;> rcases am with _ | node <;>
        by_cases hkc : kc = "" <;>
        simp_all [generateK8SSDConfig] <;>
        rw [← hauth]
    · cases hu
      rcases am with _ | node <;> by_cases hkc : kc = "" <;>
        simp_all [generateK8SSDConfig]
  · intro a ns
    refine ⟨fun hty => ?_, fun hty => ?_⟩ <;>
      simp [generateSafeAuthorizationCrds, hty]

/-- Witness for C10 at concrete client settings and authorizations. -/
theorem inputMutation_frame_witness :
    (generateK8SSDConfig { kubeConfig := "/kc" } {} "operator" "pod" none).2 =
      { kubeConfig := "/kc" } ∧
    (generateK8SSDConfig argsC10 {} "operator" "pod" none).2 =
      { argsC10 with httpClientConfig :=
          { argsC10.httpClientConfig with
              authorization := some { (⟨"", "", ""⟩ : Authorization) with type := "Bearer" } } } ∧
    (generateSafeAuthorizationCrds (some { type := "Basic" }) "operator").2 =
      some { type := "Basic" } ∧
    (generateSafeAuthorizationCrds (some { type := "" }) "operator").2 =
      some { (⟨"", none⟩ : SafeAuthorization) with type := "Bearer" } :=
  ⟨(inputMutation_frame.1 { kubeConfig := "/kc" } {} "operator" "pod" none).1 rfl,
   (inputMutation_frame.1 argsC10 {} "operator" "pod" none).2.2.2
     "https://api.example" { type := "" } rfl rfl rfl,
   (inputMutation_frame.2 { type := "Basic" } "operator").1 (by decide),
   (inputMutation_frame.2 { type := "" } "operator").2 rfl⟩

end Agent
